import Mathlib

/-!
Verification of the event ingestion / dispatch pipeline, retry-wrapped
transport and per-user state store of the vk_teams_async_bot repository.
Each definition is a shallow embedding of the corresponding Python function;
the file then proves or refutes the specification claims about them.
-/

set_option autoImplicit false

namespace VKTeams

/-! ## Python-dict primitives

Python `dict`s are modelled as insertion-ordered association lists.
`dlookup` is `d[k]` / `d.get(k)` (first — and in a real dict only —
binding wins); `dinsert` is `d[k] = v` (replace in place, else append).
-/

def dlookup {V : Type} (k : String) : List (String × V) → Option V
  | [] => none
  | (k', v) :: rest => if k' = k then some v else dlookup k rest

def dinsert {V : Type} (k : String) (v : V) : List (String × V) → List (String × V)
  | [] => [(k, v)]
  | (k', v') :: rest => if k' = k then (k', v) :: rest else (k', v') :: dinsert k v rest

/-- `d.update(partial)` / the per-key assignment loops of `state.py`:
fold the partial map into the base map, later occurrences winning. -/
def dmerge {V : Type} (base : List (String × V)) (d : List (String × V)) :
    List (String × V) :=
  d.foldl (fun acc kv => dinsert kv.1 kv.2 acc) base

/-- Value of the last occurrence of key `k` in a partial map. -/
def lastVal {V : Type} (k : String) : List (String × V) → Option V
  | [] => none
  | kv :: rest =>
    match lastVal k rest with
    | some v => some v
    | none => if kv.1 = k then some kv.2 else none

theorem dlookup_dinsert {V : Type} (k k2 : String) (v : V) (m : List (String × V)) :
    dlookup k (dinsert k2 v m) = if k2 = k then some v else dlookup k m := by
  induction m with
  | nil => simp [dlookup, dinsert]
  | cons kv rest ih =>
    obtain ⟨k', v'⟩ := kv
    simp only [dinsert]
    by_cases h1 : k' = k2
    · rw [if_pos h1, h1]
      by_cases h2 : k2 = k <;> simp [dlookup, h2]
    · rw [if_neg h1]
      by_cases h2 : k' = k
      · have hk2 : ¬k2 = k := fun hh => h1 (h2.trans hh.symm)
        simp [dlookup, h2, hk2]
      · simp [dlookup, h2, ih]

theorem dlookup_dmerge {V : Type} (k : String) (m d : List (String × V)) :
    dlookup k (dmerge m d) =
      match lastVal k d with
      | some v => some v
      | none => dlookup k m := by
  induction d generalizing m with
  | nil => simp [dmerge, lastVal]
  | cons kv d' ih =>
    have hstep : dmerge m (kv :: d') = dmerge (dinsert kv.1 kv.2 m) d' := rfl
    rw [hstep, ih]
    cases hlast : lastVal k d' with
    | some v => simp [lastVal, hlast]
    | none =>
      by_cases hk : kv.1 = k <;>
        simp [lastVal, hlast, hk, dlookup_dinsert]

theorem dmerge_nil {V : Type} (m : List (String × V)) : dmerge m [] = m := rfl

theorem dlookup_dmerge_self {V : Type} (k : String) (m d : List (String × V)) :
    dlookup k (dmerge (dmerge m d) d) = dlookup k (dmerge m d) := by
  rw [dlookup_dmerge, dlookup_dmerge]
  cases h : lastVal k d <;> simp [h]

/-! ## Retry policy — `helpers.py`, `retry_on_500_or_higher_response`

The decorated transport call is modelled as `func : Nat → Except CallError α`
mapping the attempt index to its outcome.  `retryGo` is the `while
current_retries > 0` loop; the result pairs the number of attempts actually
performed with the overall outcome (`none` models the wrapper falling off the
loop and returning Python `None`; `some (.error e)` models an exception
escaping the wrapper).
-/

inductive CallError where
  | serverError
  | clientError
  | transportError
  deriving DecidableEq

def retryGo {α : Type} (func : Nat → Except CallError α) (i : Nat) :
    Nat → Nat × Option (Except CallError α)
  | 0 => (0, none)
  | r + 1 =>
    match func i with
    | .ok a => (1, some (.ok a))
    | .error .serverError =>
      if r = 0 then
        (1, some (.error .serverError))
      else
        let res := retryGo func (i + 1) r
        (res.1 + 1, res.2)
    | .error .clientError => (1, some (.error .clientError))
    | .error .transportError => (1, some (.error .transportError))

def retry_on_500_or_higher_response {α : Type} (func : Nat → Except CallError α)
    (count_request_retries : Int) : Nat × Option (Except CallError α) :=
  retryGo func 0 count_request_retries.toNat

/-! ## Dispatcher — `dispatcher.py` and `handler.py`

A handler is a predicate (`filters`, possibly absent) plus a callback
identified by a number.  `processed_event` returns the identifiers of the
callbacks that were invoked for the event; middlewares may replace the event
or abort by raising (`Except.error`).
-/

structure HandlerD (E : Type) where
  filters : Option (E → Bool)
  id : Nat

/-- `BaseHandler.check`: `bool(not self.filters or self.filters(event))`. -/
def check {E : Type} (h : HandlerD E) (e : E) : Bool :=
  match h.filters with
  | none => true
  | some f => f e

def runMiddlewares {E : Type} : List (E → Except String E) → E → Except String E
  | [], e => .ok e
  | m :: rest, e =>
    match m e with
    | .ok e2 => runMiddlewares rest e2
    | .error s => .error s

/-- The handler scan of `Dispatcher.processed_event`: first handler whose
`check` holds is invoked, then `break`. -/
def firstMatch {E : Type} : List (HandlerD E) → E → List Nat
  | [], _ => []
  | h :: rest, e => if check h e then [h.id] else firstMatch rest e

def processed_event {E : Type} (ms : List (E → Except String E))
    (handlers : List (HandlerD E)) (e : E) : Except String (List Nat) :=
  match runMiddlewares ms e with
  | .error s => .error s
  | .ok e2 => .ok (firstMatch handlers e2)

theorem firstMatch_eq_find {E : Type} (handlers : List (HandlerD E)) (e : E) :
    firstMatch handlers e =
      match handlers.find? (fun h => check h e) with
      | some h => [h.id]
      | none => [] := by
  induction handlers with
  | nil => simp [firstMatch]
  | cons h rest ih =>
    by_cases hc : check h e <;> simp [firstMatch, List.find?, hc, ih]

/-! ## Event poller — `bot.py`, `Bot.get_events` / `start_polling`

A long-poll response is a dict whose values are either booleans (`"ok"`)
or the list under `"events"`; `P` is the (uninspected) payload type of a
raw event envelope.  `get_events` returns the updated cursor, the batch
handed back to `start_polling` (`none` models returning Python `None`),
and whether `EventsKeyMissingError` was logged.
-/

structure RawEvent (P : Type) where
  eventId : Nat
  type : String
  payload : P
  deriving DecidableEq

inductive RespVal (P : Type) where
  | vBool (b : Bool)
  | vEvents (evs : List (RawEvent P))
  deriving DecidableEq

abbrev Response (P : Type) := List (String × RespVal P)

/-- Python truthiness of a value stored in the response dict. -/
def truthyRespVal {P : Type} : RespVal P → Bool
  | .vBool b => b
  | .vEvents evs => !evs.isEmpty

structure GetEventsResult (P : Type) where
  last_event_id : Nat
  returned : Option (List (RawEvent P))
  logged_events_key_missing : Bool
  deriving DecidableEq

def get_events {P : Type} (last_event_id : Nat) (response : Option (Response P)) :
    Except String (GetEventsResult P) :=
  match response with
  | none => .ok ⟨last_event_id, none, false⟩
  | some r =>
    if r.isEmpty then .ok ⟨last_event_id, none, false⟩
    else
      match dlookup "events" r with
      | none => .ok ⟨last_event_id, none, true⟩
      | some v =>
        if truthyRespVal v then
          match v with
          | .vEvents evs =>
            match evs.getLast? with
            | some lastEv => .ok ⟨lastEv.eventId, some evs, false⟩
            | none => .ok ⟨last_event_id, none, false⟩
          | .vBool _ => .error "TypeError"
        else .ok ⟨last_event_id, none, false⟩

/-- The cursor threading of `start_polling`: each iteration polls with the
current cursor; a raised error is caught and logged, leaving the cursor
unchanged. -/
def pollMany {P : Type} (cursor : Nat) : List (Response P) → Nat
  | [] => cursor
  | r :: rs =>
    match get_events cursor (some r) with
    | .ok res => pollMany res.last_event_id rs
    | .error _ => pollMany cursor rs

/-! ## Handler invocation — `handler.py`, `BaseHandler.handle`

Each matched dependency provider is one of Python's four shapes as
distinguished by `inspect`; `handle` is modelled as the sequence of
externally visible operations it performs.  `TraceOp.teardown` stands for
resuming or closing an async generator past its first `yield` (running the
provider's release phase).
-/

inductive Depend where
  | asyncGen (id : Nat)
  | asyncFunc (id : Nat)
  | syncFunc (id : Nat)
  | plainValue (id : Nat)
  deriving DecidableEq

inductive TraceOp where
  | setup (id : Nat)
  | teardown (id : Nat)
  | callFactory (id : Nat)
  | callbackCall
  | callbackRaise
  deriving DecidableEq

/-- Operations performed for one matched dependency inside the
`for item_name, item_func in handle_kwargs.items()` loop. -/
def dependOps : Depend → List TraceOp
  | .asyncGen i => [TraceOp.setup i]
  | .asyncFunc i => [TraceOp.callFactory i]
  | .syncFunc i => [TraceOp.callFactory i]
  | .plainValue _ => []

/-- `BaseHandler.handle`: resolve each matched dependency, then invoke the
callback (which either returns or raises). -/
def handle (deps : List Depend) (callbackSucceeds : Bool) : List TraceOp :=
  (deps.map dependOps).flatten ++
    [if callbackSucceeds then TraceOp.callbackCall else TraceOp.callbackRaise]

/-! ## User state store — `state.py`, `DictUserState`

`users_states` is a dict from user id to the per-user entry dict with keys
`expire_session`, `state`, `data`, `additional`.  Times are `Nat`; `now`
stands for `datetime.now()` at the moment of the call.  Each operation
returns the new store paired with a flag recording whether a `KeyError`
was caught and logged.
-/

structure Entry (V : Type) where
  expire_session : Option Nat
  state : Option String
  data : List (String × V)
  additional : List (String × V)
  deriving DecidableEq

abbrev Store (V : Type) := List (String × Entry V)

structure StateData (V : Type) where
  user : String
  state : Option String
  data : Option (List (String × V))
  expire_session : Nat
  additional : Option (List (String × V))

namespace DictUserState

/-- `DictUserState.set_new_expire_session` — note the source indexes the
literal key `"user"`, not the `user` argument, when writing the new
expiry. -/
def set_new_expire_session {V : Type} (now : Nat) (user : String)
    (expire_session : Nat) (store : Store V) : Store V × Bool :=
  if (dlookup user store).isSome then
    match dlookup "user" store with
    | some e =>
      (dinsert "user" {e with expire_session := some (now + expire_session)} store, false)
    | none => (store, true)
  else (store, false)

/-- `DictUserState.update_user_data`: merge `data` key-by-key into the
user's entry (a missing user raises `KeyError` on the first iteration,
caught and logged), then refresh the expiry with the 15s default. -/
def update_user_data {V : Type} (now : Nat) (user : String)
    (data : List (String × V)) (store : Store V) : Store V × Bool :=
  match dlookup user store with
  | some e =>
    set_new_expire_session now user 15
      (dinsert user {e with data := dmerge e.data data} store)
  | none => if data.isEmpty then (store, false) else (store, true)

/-- `DictUserState.update_user_state`. -/
def update_user_state {V : Type} (now : Nat) (user : String) (state : String)
    (store : Store V) : Store V × Bool :=
  match dlookup user store with
  | some e =>
    set_new_expire_session now user 15
      (dinsert user {e with state := some state} store)
  | none => (store, false)

/-- `DictUserState.update_user_additional` — the source replaces the
`additional` dict wholesale and indexes the literal key `"user"`. -/
def update_user_additional {V : Type} (now : Nat) (user : String)
    (additional : List (String × V)) (store : Store V) : Store V × Bool :=
  if (dlookup user store).isSome then
    match dlookup "user" store with
    | some e =>
      set_new_expire_session now user 15
        (dinsert "user" {e with additional := additional} store)
    | none => (store, true)
  else (store, false)

/-- The successive in-place updates `DictUserState.set` applies to the
user's entry dict: overwrite the expiry and state, then merge `data` /
`additional` key-by-key (each merge runs only when the passed mapping is
truthy, i.e. present and non-empty). -/
def setEntry {V : Type} (now : Nat) (e0 : Entry V) (sd : StateData V) : Entry V :=
  let e1 := {e0 with
    expire_session := some (now + sd.expire_session)
    state := sd.state}
  let e2 :=
    match sd.data with
    | some d => if d.isEmpty then e1 else {e1 with data := dmerge e1.data d}
    | none => e1
  match sd.additional with
  | some d => if d.isEmpty then e2 else {e2 with additional := dmerge e2.additional d}
  | none => e2

/-- `DictUserState.set`: create the entry if absent
(`state=None`, empty dicts, no expiry), then apply `setEntry`. -/
def set {V : Type} (now : Nat) (store : Store V) (sd : StateData V) : Store V :=
  let store1 :=
    if (dlookup sd.user store).isSome then store
    else dinsert sd.user ⟨none, none, [], []⟩ store
  dinsert sd.user
    (setEntry now ((dlookup sd.user store1).getD ⟨none, none, [], []⟩) sd) store1

/-- One tick of `DictUserState._session_timeout_handler`: delete every
entry whose expiry has passed; an entry with no expiry set makes the
comparison with `datetime.now()` raise `TypeError`. -/
def session_timeout_tick {V : Type} (now : Nat) : Store V → Except String (Store V)
  | [] => .ok []
  | (u, e) :: rest =>
    match e.expire_session with
    | none => .error "TypeError"
    | some t =>
      if now > t then session_timeout_tick now rest
      else
        match session_timeout_tick now rest with
        | .ok rest2 => .ok ((u, e) :: rest2)
        | .error s => .error s

end DictUserState

/-! ## Event model — `events.py`

Payloads are JSON-like values; an event payload itself is a dict
(`List (String × PVal)`).  `ChatInfo` / `UserInfo` keep their keyword
arguments raw, as the Python constructors do; passing a keyword outside
the constructor's signature, or omitting a required one, raises
`TypeError`.  `decodeEvent` embeds `Event.__init__`; a decode failure is
the exception the constructor would raise.
-/

inductive PVal where
  | vStr (s : String)
  | vInt (n : Int)
  | vBool (b : Bool)
  | vObj (fields : List (String × PVal))
  | vArr (elems : List PVal)

inductive EventType where
  | NEW_MESSAGE
  | EDITED_MESSAGE
  | DELETED_MESSAGE
  | PINNED_MESSAGE
  | UNPINNED_MESSAGE
  | NEW_CHAT_MEMBERS
  | LEFT_CHAT_MEMBERS
  | CHANGED_CHAT_INFO
  | CALLBACK_QUERY
  deriving DecidableEq

/-- Python truthiness of a payload value. -/
def truthyPVal : PVal → Bool
  | .vStr s => !s.isEmpty
  | .vInt n => n != 0
  | .vBool b => b
  | .vObj fields => !fields.isEmpty
  | .vArr elems => !elems.isEmpty

structure ChatInfo where
  chatId : PVal
  type : PVal
  title : Option PVal

structure UserInfo where
  userId : PVal
  firstName : Option PVal
  lastName : Option PVal
  nick : Option PVal

/-- `ChatInfo(**fields)`. -/
def chatInfoOfKwargs (fields : List (String × PVal)) : Except String ChatInfo :=
  if fields.all (fun kv => kv.1 == "chatId" || kv.1 == "type" || kv.1 == "title") then
    match dlookup "chatId" fields, dlookup "type" fields with
    | some c, some t => .ok ⟨c, t, dlookup "title" fields⟩
    | _, _ => .error "TypeError: ChatInfo missing required argument"
  else .error "TypeError: ChatInfo unexpected keyword argument"

/-- `UserInfo(**fields)`. -/
def userInfoOfKwargs (fields : List (String × PVal)) : Except String UserInfo :=
  if fields.all (fun kv =>
      kv.1 == "userId" || kv.1 == "firstName" || kv.1 == "lastName" || kv.1 == "nick") then
    match dlookup "userId" fields with
    | some u =>
      .ok ⟨u, dlookup "firstName" fields, dlookup "lastName" fields, dlookup "nick" fields⟩
    | none => .error "TypeError: UserInfo missing required argument"
  else .error "TypeError: UserInfo unexpected keyword argument"

/-- `ChatInfo(**v)` for a raw payload value `v`. -/
def chatFromVal : PVal → Except String ChatInfo
  | .vObj fields => chatInfoOfKwargs fields
  | _ => .error "TypeError: not a mapping"

/-- `ChatInfo(**data["chat"])`. -/
def chatFromData (data : List (String × PVal)) : Except String ChatInfo :=
  match dlookup "chat" data with
  | some v => chatFromVal v
  | none => .error "KeyError: chat"

/-- `ChatInfo(**data["message"]["chat"])`. -/
def chatFromMessage (data : List (String × PVal)) : Except String ChatInfo :=
  match dlookup "message" data with
  | some (.vObj msgFields) => chatFromData msgFields
  | some _ => .error "TypeError: not a mapping"
  | none => .error "KeyError: message"

/-- `if data.get(key): UserInfo(**data[key])` — the attribute stays unset
when the key is absent or its value falsy. -/
def optionalUserField (data : List (String × PVal)) (key : String) :
    Except String (Option UserInfo) :=
  match dlookup key data with
  | some v =>
    if truthyPVal v then
      match v with
      | .vObj fields => (userInfoOfKwargs fields).map some
      | _ => .error "TypeError: not a mapping"
    else .ok none
  | none => .ok none

/-- `[UserInfo(**user) for user in ...]`. -/
def decodeMembers : List PVal → Except String (List UserInfo)
  | [] => .ok []
  | v :: rest =>
    match v with
    | .vObj fields =>
      match userInfoOfKwargs fields with
      | .ok u => (decodeMembers rest).map (u :: ·)
      | .error s => .error s
    | _ => .error "TypeError: not a mapping"

/-- `data.get("newMembers", [])` decoded element-wise. -/
def membersFromData (data : List (String × PVal)) : Except String (List UserInfo) :=
  match dlookup "newMembers" data with
  | none => .ok []
  | some (.vArr elems) => decodeMembers elems
  | some _ => .error "TypeError: not iterable"

/-- The decoded `Event` object: every attribute `Event.__init__` can set,
with `none` / `[]` for the attributes the kind's branch leaves unset. -/
inductive EventL where
  | mk (type : EventType)
      (data : List (String × PVal))
      (text : Option PVal)
      (chat : ChatInfo)
      (from_ : Option UserInfo)
      (format : Option PVal)
      (timestamp : Option PVal)
      (msgId : Option PVal)
      (newMembers : List UserInfo)
      (addedBy : Option UserInfo)
      (queryId : Option PVal)
      (cb_message : Option EventL)
      (callbackData : Option PVal)

def EventL.chat : EventL → ChatInfo
  | .mk _ _ _ c _ _ _ _ _ _ _ _ _ => c

def EventL.cb_message : EventL → Option EventL
  | .mk _ _ _ _ _ _ _ _ _ _ _ sub _ => sub

def EventL.queryId : EventL → Option PVal
  | .mk _ _ _ _ _ _ _ _ _ _ q _ _ => q

theorem sizeOf_dlookup_lt {V : Type} [SizeOf V] (k : String) (l : List (String × V))
    (v : V) (h : dlookup k l = some v) : sizeOf v < sizeOf l := by
  induction l with
  | nil => simp [dlookup] at h
  | cons kv rest ih =>
    obtain ⟨k', v'⟩ := kv
    simp only [dlookup] at h
    split at h
    · cases h
      simp only [List.cons.sizeOf_spec, Prod.mk.sizeOf_spec]
      omega
    · have := ih h
      simp only [List.cons.sizeOf_spec, Prod.mk.sizeOf_spec]
      omega

set_option linter.unusedVariables false in
/-- `Event.__init__`: derive `text` and `chat`, then populate the
kind-specific attributes; `CHANGED_CHAT_INFO` reaches the same `else`
branch as `CALLBACK_QUERY`, and the nested `cb_message` of a callback
query recurses into the same constructor with kind `NEW_MESSAGE`. -/
def decodeEvent (ty : EventType) (data : List (String × PVal)) : Except String EventL :=
  match if ty = EventType.CALLBACK_QUERY then chatFromMessage data else chatFromData data with
  | .error s => .error s
  | .ok chat =>
    match ty with
    | .NEW_MESSAGE | .EDITED_MESSAGE | .PINNED_MESSAGE =>
      match optionalUserField data "from" with
      | .error s => .error s
      | .ok f =>
        .ok (.mk ty data (dlookup "text" data) chat f (dlookup "format" data) (dlookup "timestamp" data)
          (dlookup "msgId" data) [] none none none none)
    | .DELETED_MESSAGE | .UNPINNED_MESSAGE =>
      .ok (.mk ty data (dlookup "text" data) chat none none (dlookup "timestamp" data)
        (dlookup "msgId" data) [] none none none none)
    | .NEW_CHAT_MEMBERS | .LEFT_CHAT_MEMBERS =>
      match membersFromData data with
      | .error s => .error s
      | .ok members =>
        match optionalUserField data "addedBy" with
        | .error s => .error s
        | .ok added =>
          .ok (.mk ty data (dlookup "text" data) chat none none none none members added none none none)
    | _ =>
      match dlookup "queryId" data with
      | none => .error "KeyError: queryId"
      | some qid =>
        match dlookup "from" data with
        | none => .error "KeyError: from"
        | some (.vObj fromFields) =>
          match userInfoOfKwargs fromFields with
          | .error s => .error s
          | .ok f =>
            match hm : dlookup "message" data with
            | none => .error "KeyError: message"
            | some (.vObj msgFields) =>
              match decodeEvent EventType.NEW_MESSAGE msgFields with
              | .error s => .error s
              | .ok sub =>
                match dlookup "callbackData" data with
                | none => .error "KeyError: callbackData"
                | some cbd =>
                  .ok (.mk ty data (dlookup "text" data) chat (some f) none none none [] none
                    (some qid) (some sub) (some cbd))
            | some _ => .error "TypeError: not a mapping"
        | some _ => .error "TypeError: not a mapping"
termination_by sizeOf data
decreasing_by
  have hlt := sizeOf_dlookup_lt "message" data _ hm
  simp only [PVal.vObj.sizeOf_spec] at hlt
  omega

/-! ## Shared helper lemmas -/

theorem get_events_nonempty {P : Type} (cursor : Nat) (r : Response P)
    (evs : List (RawEvent P)) (lastEv : RawEvent P)
    (hlook : dlookup "events" r = some (RespVal.vEvents evs))
    (hlast : evs.getLast? = some lastEv) :
    get_events cursor (some r) = .ok ⟨lastEv.eventId, some evs, false⟩ := by
  cases r with
  | nil => simp [dlookup] at hlook
  | cons hd tl =>
    cases evs with
    | nil => simp at hlast
    | cons ev0 evtl =>
      simp [get_events, hlook, truthyRespVal, hlast]

theorem firstMatch_length_le_one {E : Type} (handlers : List (HandlerD E)) (e : E) :
    (firstMatch handlers e).length ≤ 1 := by
  rw [firstMatch_eq_find]
  cases handlers.find? (fun h => check h e) <;> simp

/-- The stored `data` dict of a user, empty when the user has no entry. -/
def entryData {V : Type} (store : Store V) (u : String) : List (String × V) :=
  ((dlookup u store).getD ⟨none, none, [], []⟩).data

/-- The stored `additional` dict of a user, empty when the user has no entry. -/
def entryAdditional {V : Type} (store : Store V) (u : String) : List (String × V) :=
  ((dlookup u store).getD ⟨none, none, [], []⟩).additional

theorem setEntry_state {V : Type} (now : Nat) (e0 : Entry V) (sd : StateData V) :
    (DictUserState.setEntry now e0 sd).state = sd.state := by
  unfold DictUserState.setEntry
  (repeat' split) <;> rfl

theorem setEntry_expire {V : Type} (now : Nat) (e0 : Entry V) (sd : StateData V) :
    (DictUserState.setEntry now e0 sd).expire_session = some (now + sd.expire_session) := by
  unfold DictUserState.setEntry
  (repeat' split) <;> rfl

theorem setEntry_data_some {V : Type} (now : Nat) (e0 : Entry V) (sd : StateData V)
    (k : String) (v : V) (hl : lastVal k (sd.data.getD []) = some v) :
    dlookup k (DictUserState.setEntry now e0 sd).data = some v := by
  obtain ⟨u, st, dataF, exp, addF⟩ := sd
  unfold DictUserState.setEntry
  rcases dataF with _ | (_ | ⟨kv, d'⟩) <;> rcases addF with _ | a <;>
    simp_all [dlookup_dmerge, lastVal, dmerge_nil, apply_ite]

theorem setEntry_data_old {V : Type} (now : Nat) (e0 : Entry V) (sd : StateData V)
    (k : String) (hl : lastVal k (sd.data.getD []) = none) :
    dlookup k (DictUserState.setEntry now e0 sd).data = dlookup k e0.data := by
  obtain ⟨u, st, dataF, exp, addF⟩ := sd
  unfold DictUserState.setEntry
  rcases dataF with _ | (_ | ⟨kv, d'⟩) <;> rcases addF with _ | a <;>
    simp_all [dlookup_dmerge, lastVal, dmerge_nil, apply_ite]

theorem setEntry_additional_some {V : Type} (now : Nat) (e0 : Entry V) (sd : StateData V)
    (k : String) (v : V) (hl : lastVal k (sd.additional.getD []) = some v) :
    dlookup k (DictUserState.setEntry now e0 sd).additional = some v := by
  obtain ⟨u, st, dataF, exp, addF⟩ := sd
  unfold DictUserState.setEntry
  rcases addF with _ | (_ | ⟨kv, a'⟩) <;> rcases dataF with _ | d <;>
    simp_all [dlookup_dmerge, lastVal, dmerge_nil, apply_ite]

theorem setEntry_additional_old {V : Type} (now : Nat) (e0 : Entry V) (sd : StateData V)
    (k : String) (hl : lastVal k (sd.additional.getD []) = none) :
    dlookup k (DictUserState.setEntry now e0 sd).additional =
      dlookup k e0.additional := by
  obtain ⟨u, st, dataF, exp, addF⟩ := sd
  unfold DictUserState.setEntry
  rcases addF with _ | (_ | ⟨kv, a'⟩) <;> rcases dataF with _ | d <;>
    simp_all [dlookup_dmerge, lastVal, dmerge_nil, apply_ite]

theorem dlookup_eq_none_of_not_mem {V : Type} (u : String) (l : List (String × V))
    (h : u ∉ l.map Prod.fst) : dlookup u l = none := by
  induction l with
  | nil => rfl
  | cons kv rest ih =>
    obtain ⟨k', v'⟩ := kv
    simp only [List.map_cons, List.mem_cons] at h
    push_neg at h
    obtain ⟨h1, h2⟩ := h
    simp only [dlookup]
    rw [if_neg (fun hh : k' = u => h1 hh.symm)]
    exact ih h2

theorem tick_preserves_none {V : Type} (now : Nat) (u : String) :
    ∀ store s2 : Store V, DictUserState.session_timeout_tick now store = .ok s2 →
      dlookup u store = none → dlookup u s2 = none := by
  intro store
  induction store with
  | nil =>
    intro s2 h hu
    unfold DictUserState.session_timeout_tick at h
    cases h
    exact hu
  | cons p rest ih =>
    intro s2 h hu
    obtain ⟨u0, e0⟩ := p
    simp only [dlookup] at hu
    by_cases hne : u0 = u
    · rw [if_pos hne] at hu
      cases hu
    · rw [if_neg hne] at hu
      unfold DictUserState.session_timeout_tick at h
      cases hex : e0.expire_session with
      | none => simp only [hex] at h; cases h
      | some t =>
        simp only [hex] at h
        by_cases hgt : now > t
        · rw [if_pos hgt] at h
          exact ih s2 h hu
        · rw [if_neg hgt] at h
          cases hrec : DictUserState.session_timeout_tick now rest with
          | error s => rw [hrec] at h; cases h
          | ok rest2 =>
            rw [hrec] at h
            cases h
            simp only [dlookup]
            rw [if_neg hne]
            exact ih rest2 hrec hu

theorem set_lookup_self {V : Type} (now : Nat) (store : Store V) (sd : StateData V) :
    dlookup sd.user (DictUserState.set now store sd) =
      some (DictUserState.setEntry now
        ((dlookup sd.user store).getD ⟨none, none, [], []⟩) sd) := by
  unfold DictUserState.set
  cases h : dlookup sd.user store with
  | some e => simp [h, dlookup_dinsert]
  | none => simp [h, dlookup_dinsert]

/-! ## Claims -/

/-- C1: on every well-formed poll response with a non-empty events list,
`get_events` sets the cursor (`last_event_id`) to the `eventId` of the last
event of the batch and returns the batch; consequently, over any sequence of
such polled batches, the cursor after poll N equals the `eventId` of the
last event of batch N. -/
theorem claim_c1_cursor_advance :
    (∀ (P : Type) (cursor : Nat) (r : Response P) (evs : List (RawEvent P))
        (lastEv : RawEvent P),
        dlookup "events" r = some (RespVal.vEvents evs) →
        evs.getLast? = some lastEv →
        get_events cursor (some r) = .ok ⟨lastEv.eventId, some evs, false⟩)
  ∧ (∀ (P : Type) (cursor : Nat) (rs : List (Response P)) (r' : Response P)
        (evs' : List (RawEvent P)) (lastEv' : RawEvent P),
        (∀ r ∈ rs, ∃ evs lastEv, dlookup "events" r = some (RespVal.vEvents evs)
            ∧ evs.getLast? = some lastEv) →
        rs.getLast? = some r' →
        dlookup "events" r' = some (RespVal.vEvents evs') →
        evs'.getLast? = some lastEv' →
        pollMany cursor rs = lastEv'.eventId) := by
  constructor
  · exact fun P cursor r evs lastEv hlook hlast =>
      get_events_nonempty cursor r evs lastEv hlook hlast
  · intro P cursor rs
    induction rs generalizing cursor with
    | nil =>
      intro r' evs' lastEv' _ hlast
      simp at hlast
    | cons r rs' ih =>
      intro r' evs' lastEv' hall hlast hlook' hlast'
      obtain ⟨evs, lastEv, hlook, hlaste⟩ := hall r (List.mem_cons_self r rs')
      have hge := get_events_nonempty cursor r evs lastEv hlook hlaste
      cases rs' with
      | nil =>
        simp only [List.getLast?_singleton, Option.some.injEq] at hlast
        subst hlast
        rw [hlook] at hlook'
        cases hlook'
        rw [hlaste] at hlast'
        cases hlast'
        simp [pollMany, hge]
      | cons r2 rs'' =>
        have hlast2 : (r2 :: rs'').getLast? = some r' := by
          rwa [List.getLast?_cons_cons] at hlast
        have hrec := ih lastEv.eventId r' evs' lastEv'
          (fun rr hrr => hall rr (List.mem_cons_of_mem r hrr)) hlast2 hlook' hlast'
        rw [← hrec]
        show (match get_events cursor (some r) with
          | .ok res => pollMany res.last_event_id (r2 :: rs'')
          | .error _ => pollMany cursor (r2 :: rs'')) = pollMany lastEv.eventId (r2 :: rs'')
        rw [hge]

/-- C1 witness: a one-event batch advances the cursor from 0 to 5, and a
sequence of two batches leaves the cursor at the last event id 7 of the
second batch. -/
theorem claim_c1_cursor_advance_witness :
    get_events 0 (some [("events", RespVal.vEvents [⟨5, "newMessage", ()⟩])])
      = .ok ⟨5, some [⟨5, "newMessage", ()⟩], false⟩
  ∧ pollMany 0
      [[("events", RespVal.vEvents [⟨5, "newMessage", ()⟩])],
       [("events", RespVal.vEvents [⟨6, "newMessage", ()⟩, ⟨7, "editedMessage", ()⟩])]]
      = 7 :=
  ⟨claim_c1_cursor_advance.1 Unit 0 [("events", RespVal.vEvents [⟨5, "newMessage", ()⟩])]
     [⟨5, "newMessage", ()⟩] ⟨5, "newMessage", ()⟩ rfl rfl,
   claim_c1_cursor_advance.2 Unit 0
     [[("events", RespVal.vEvents [⟨5, "newMessage", ()⟩])],
      [("events", RespVal.vEvents [⟨6, "newMessage", ()⟩, ⟨7, "editedMessage", ()⟩])]]
     [("events", RespVal.vEvents [⟨6, "newMessage", ()⟩, ⟨7, "editedMessage", ()⟩])]
     [⟨6, "newMessage", ()⟩, ⟨7, "editedMessage", ()⟩] ⟨7, "editedMessage", ()⟩
     (by
       intro r hr
       simp only [List.mem_cons, List.not_mem_nil, or_false] at hr
       rcases hr with h | h <;> subst h <;> exact ⟨_, _, rfl, rfl⟩)
     rfl rfl rfl⟩

/-- C2: dispatch runs the middleware chain, then scans handlers in
registration order and invokes exactly the first whose `check` holds (a
handler with no filter always matches); at most one callback is invoked,
and when none matches the event is dropped with no error. -/
theorem claim_c2_at_most_one_handler :
    (∀ (E : Type) (ms : List (E → Except String E)) (handlers : List (HandlerD E))
        (e : E) (invoked : List Nat),
        processed_event ms handlers e = .ok invoked → invoked.length ≤ 1)
  ∧ (∀ (E : Type) (ms : List (E → Except String E)) (handlers : List (HandlerD E))
        (e e2 : E),
        runMiddlewares ms e = .ok e2 →
        processed_event ms handlers e =
          .ok (match handlers.find? (fun h => check h e2) with
               | some h => [h.id]
               | none => [])) := by
  constructor
  · intro E ms handlers e invoked h
    unfold processed_event at h
    cases hm : runMiddlewares ms e with
    | error s => rw [hm] at h; cases h
    | ok e2 =>
      rw [hm] at h
      cases h
      exact firstMatch_length_le_one handlers e2
  · intro E ms handlers e e2 hm
    unfold processed_event
    rw [hm]
    show Except.ok (firstMatch handlers e2) = _
    rw [firstMatch_eq_find]

/-- C2 witness: with two matching handlers only the first one (id 10) is
invoked, and with no matching handler the event is dropped without error. -/
theorem claim_c2_at_most_one_handler_witness :
    processed_event ([] : List (Nat → Except String Nat))
      [⟨some (fun n => n == 1), 10⟩, ⟨none, 11⟩] 1 = .ok [10]
  ∧ processed_event ([] : List (Nat → Except String Nat))
      [⟨some (fun n => n == 2), 10⟩] 1 = .ok [] := by
  constructor
  · have h := claim_c2_at_most_one_handler.2 Nat []
      [⟨some (fun n => n == 1), 10⟩, ⟨none, 11⟩] 1 1 rfl
    simpa using h
  · have h := claim_c2_at_most_one_handler.2 Nat
      [] [⟨some (fun n => n == 2), 10⟩] 1 1 rfl
    simpa using h

/-- C3: with the underlying call always raising `ServerError` and a retry
count of 3, exactly 3 attempts are performed and the `ServerError` is then
re-raised; any non-`ServerError` failure propagates after a single attempt
for every positive retry count. -/
theorem claim_c3_retry_exhaustion :
    (∀ (α : Type) (func : Nat → Except CallError α),
        (∀ i, func i = .error .serverError) →
        retry_on_500_or_higher_response func 3 = (3, some (.error .serverError)))
  ∧ (∀ (α : Type) (func : Nat → Except CallError α) (e : CallError) (c : Int),
        e ≠ CallError.serverError → func 0 = .error e → 1 ≤ c →
        retry_on_500_or_higher_response func c = (1, some (.error e))) := by
  constructor
  · intro α func h
    show retryGo func 0 3 = (3, some (.error .serverError))
    simp [retryGo, h]
  · intro α func e c he hf hc
    show retryGo func 0 c.toNat = (1, some (.error e))
    have h1 : c.toNat ≠ 0 := by omega
    obtain ⟨r, hr⟩ := Nat.exists_eq_succ_of_ne_zero h1
    rw [hr]
    cases e with
    | serverError => exact absurd rfl he
    | clientError => simp [retryGo, hf]
    | transportError => simp [retryGo, hf]

/-- C3 witness: a stub always raising `ServerError` with retry count 3 is
attempted exactly 3 times then the error is re-raised; a stub raising a
client error with retry count 2 is attempted once and propagates. -/
theorem claim_c3_retry_exhaustion_witness :
    retry_on_500_or_higher_response
        (fun _ => (Except.error CallError.serverError : Except CallError Nat)) 3
      = (3, some (Except.error CallError.serverError))
  ∧ retry_on_500_or_higher_response
        (fun _ => (Except.error CallError.clientError : Except CallError Nat)) 2
      = (1, some (Except.error CallError.clientError)) :=
  ⟨claim_c3_retry_exhaustion.1 Nat _ (fun _ => rfl),
   claim_c3_retry_exhaustion.2 Nat _ CallError.clientError 2 (by decide) rfl (by decide)⟩

/-- C8: a truthy response that carries the platform's `ok` field but lacks
the `events` key makes `get_events` log the protocol error and return
`None`, leaving the cursor unchanged. -/
theorem claim_c8_missing_events_key (P : Type) (cursor : Nat) (r : Response P) (b : Bool)
    (hok : dlookup "ok" r = some (RespVal.vBool b))
    (hmiss : dlookup "events" r = none) :
    get_events cursor (some r) = .ok ⟨cursor, none, true⟩ := by
  cases r with
  | nil => simp [dlookup] at hok
  | cons hd tl => simp [get_events, hmiss]

/-- C8 witness: the response `{"ok": true}` yields an empty result, an
unchanged cursor 4 and a logged protocol error. -/
theorem claim_c8_missing_events_key_witness :
    get_events 4 (some [("ok", RespVal.vBool (P := Unit) true)]) = .ok ⟨4, none, true⟩ :=
  claim_c8_missing_events_key Unit 4 _ true rfl rfl

/-- C4 (refuted): for a scoped-resource (async generator) dependency,
`BaseHandler.handle` runs the setup phase before the callback, but no
teardown operation ever appears in its trace, whether the callback returns
or raises — the generator is never resumed or closed. -/
theorem claim_c4_no_teardown :
    handle [Depend.asyncGen 0] true = [TraceOp.setup 0, TraceOp.callbackCall]
  ∧ handle [Depend.asyncGen 0] false = [TraceOp.setup 0, TraceOp.callbackRaise]
  ∧ ∀ (deps : List Depend) (b : Bool) (i : Nat),
      (handle deps b).count (TraceOp.teardown i) = 0 := by
  refine ⟨rfl, rfl, ?_⟩
  intro deps b i
  induction deps with
  | nil => cases b <;> simp [handle, List.count_cons]
  | cons d ds ih =>
    have hstep : handle (d :: ds) b = dependOps d ++ handle ds b := by
      simp [handle]
    rw [hstep, List.count_append, ih]
    cases d <;> simp [dependOps, List.count_cons]

/-- C5 (refuted): `update_*` on an existing entry does not refresh that
entry's expiry — `set_new_expire_session` writes to the literal key
`"user"`, raising a logged `KeyError` — and `update_user_additional`
replaces (not merges) the `additional` dict of the literal `"user"` entry,
leaving the target user's entry untouched.  The missing-entry no-op part of
the claim does hold (last conjunct). -/
theorem claim_c5_literal_user_key :
    (DictUserState.update_user_data 50 "u1" [("k", (7 : Nat))]
        [("u1", ⟨some 100, some "s0", [], []⟩)]).1
      = [("u1", ⟨some 100, some "s0", [("k", 7)], []⟩)]
  ∧ (DictUserState.update_user_state 50 "u1" "s1"
        [("u1", (⟨some 100, some "s0", [], []⟩ : Entry Nat))]).1
      = [("u1", ⟨some 100, some "s1", [], []⟩)]
  ∧ (DictUserState.update_user_additional 50 "u1" [("a", (1 : Nat))]
        [("u1", ⟨some 100, some "s0", [], []⟩)]).1
      = [("u1", ⟨some 100, some "s0", [], []⟩)]
  ∧ DictUserState.update_user_state 50 "u1" "s1" ([] : Store Nat) = ([], false) := by
  refine ⟨?_, ?_, ?_, ?_⟩ <;> rfl

/-- C10: with a retry count of zero or negative, the `while` loop of the
retry wrapper is never entered: the underlying transport call is attempted
zero times and the wrapper returns `None`. -/
theorem claim_c10_nonpositive_retries (α : Type) (func : Nat → Except CallError α)
    (c : Int) (hc : c ≤ 0) :
    retry_on_500_or_higher_response func c = (0, none) := by
  show retryGo func 0 c.toNat = (0, none)
  have h0 : c.toNat = 0 := by omega
  rw [h0]
  rfl

/-- C10 witness: a successful stub with retry count 0 (and a failing stub
with retry count -1) is never called and the wrapper returns `None`. -/
theorem claim_c10_nonpositive_retries_witness :
    retry_on_500_or_higher_response (fun _ => (Except.ok 7 : Except CallError Nat)) 0
      = (0, none)
  ∧ retry_on_500_or_higher_response
      (fun _ => (Except.error CallError.serverError : Except CallError Nat)) (-1)
      = (0, none) :=
  ⟨claim_c10_nonpositive_retries Nat _ 0 (by decide),
   claim_c10_nonpositive_retries Nat _ (-1) (by decide)⟩

/-- C6: `set` creates the entry if absent, overwrites `state`
unconditionally, resets the expiry to `now + expire_session`, and merges
`data` / `additional` key-by-key (keys of the partial map take its last
value, untouched keys keep their previous value); hence calling `set`
twice with identical arguments leaves the stored `data` and `additional`
mappings unchanged. -/
theorem claim_c6_set_merge_idempotent :
    (∀ (V : Type) (now : Nat) (store : Store V) (sd : StateData V),
        ∃ e, dlookup sd.user (DictUserState.set now store sd) = some e
          ∧ e.state = sd.state
          ∧ e.expire_session = some (now + sd.expire_session)
          ∧ (∀ k v, lastVal k (sd.data.getD []) = some v → dlookup k e.data = some v)
          ∧ (∀ k, lastVal k (sd.data.getD []) = none →
              dlookup k e.data = dlookup k (entryData store sd.user))
          ∧ (∀ k v, lastVal k (sd.additional.getD []) = some v →
              dlookup k e.additional = some v)
          ∧ (∀ k, lastVal k (sd.additional.getD []) = none →
              dlookup k e.additional = dlookup k (entryAdditional store sd.user)))
  ∧ (∀ (V : Type) (now now2 : Nat) (store : Store V) (sd : StateData V) (k : String),
        dlookup k
            (entryData (DictUserState.set now2 (DictUserState.set now store sd) sd) sd.user)
          = dlookup k (entryData (DictUserState.set now store sd) sd.user)
        ∧ dlookup k
            (entryAdditional
              (DictUserState.set now2 (DictUserState.set now store sd) sd) sd.user)
          = dlookup k (entryAdditional (DictUserState.set now store sd) sd.user)) := by
  constructor
  · intro V now store sd
    refine ⟨_, set_lookup_self now store sd, setEntry_state _ _ _, setEntry_expire _ _ _,
      fun k v hl => setEntry_data_some now _ sd k v hl,
      fun k hl => setEntry_data_old now _ sd k hl,
      fun k v hl => setEntry_additional_some now _ sd k v hl,
      fun k hl => setEntry_additional_old now _ sd k hl⟩
  · intro V now now2 store sd k
    have h1 := set_lookup_self now store sd
    have h2 := set_lookup_self now2 (DictUserState.set now store sd) sd
    constructor
    · unfold entryData
      rw [h1, h2, h1]
      simp only [Option.getD_some]
      cases hl : lastVal k (sd.data.getD []) with
      | some v =>
        rw [setEntry_data_some now2 _ sd k v hl, setEntry_data_some now _ sd k v hl]
      | none => exact setEntry_data_old now2 _ sd k hl
    · unfold entryAdditional
      rw [h1, h2, h1]
      simp only [Option.getD_some]
      cases hl : lastVal k (sd.additional.getD []) with
      | some v =>
        rw [setEntry_additional_some now2 _ sd k v hl,
          setEntry_additional_some now _ sd k v hl]
      | none => exact setEntry_additional_old now2 _ sd k hl

/-- C6 witness: a `set` over an existing entry for `u1` with partial data
`{a: 2, b: 3}`: the new key is added, the existing key overwritten, the
untouched key `c` preserved, the state overwritten and the expiry reset. -/
theorem claim_c6_set_merge_idempotent_witness :
    ∃ e, dlookup "u1" (DictUserState.set 10
          [("u1", (⟨some 5, some "old", [("a", (1 : Nat)), ("c", 9)], []⟩ : Entry Nat))]
          ⟨"u1", some "s", some [("a", 2), ("b", 3)], 300, none⟩) = some e
      ∧ e.state = some "s"
      ∧ e.expire_session = some (10 + 300)
      ∧ (∀ k v, lastVal k [("a", (2 : Nat)), ("b", 3)] = some v →
          dlookup k e.data = some v)
      ∧ (∀ k, lastVal k [("a", (2 : Nat)), ("b", 3)] = none →
          dlookup k e.data = dlookup k (entryData
            [("u1", (⟨some 5, some "old", [("a", 1), ("c", 9)], []⟩ : Entry Nat))] "u1"))
      ∧ (∀ k v, lastVal k ([] : List (String × Nat)) = some v →
          dlookup k e.additional = some v)
      ∧ (∀ k, lastVal k ([] : List (String × Nat)) = none →
          dlookup k e.additional = dlookup k (entryAdditional
            [("u1", (⟨some 5, some "old", [("a", 1), ("c", 9)], []⟩ : Entry Nat))] "u1")) :=
  claim_c6_set_merge_idempotent.1 Nat 10
    [("u1", ⟨some 5, some "old", [("a", 1), ("c", 9)], []⟩)]
    ⟨"u1", some "s", some [("a", 2), ("b", 3)], 300, none⟩

/-- C7: after one tick of the expiry sweep over a store whose entries all
have an expiry set, every entry whose expiry lies in the past is absent
and every other entry is still present unchanged. -/
theorem claim_c7_expiry_sweep (V : Type) (now : Nat) :
    ∀ store : Store V, (store.map Prod.fst).Nodup →
      (∀ p ∈ store, p.2.expire_session.isSome = true) →
      ∃ store2, DictUserState.session_timeout_tick now store = .ok store2
        ∧ ∀ u e t, dlookup u store = some e → e.expire_session = some t →
            ((now > t → dlookup u store2 = none)
              ∧ (¬now > t → dlookup u store2 = some e)) := by
  intro store
  induction store with
  | nil =>
    intro _ _
    exact ⟨[], rfl, by intro u e t hl _; simp [dlookup] at hl⟩
  | cons p rest ih =>
    intro hnd hall
    obtain ⟨u0, e0⟩ := p
    obtain ⟨t0, hex⟩ :=
      Option.isSome_iff_exists.mp (hall (u0, e0) (List.mem_cons_self _ _))
    have hexe : e0.expire_session = some t0 := hex
    simp only [List.map_cons, List.nodup_cons] at hnd
    have hnotmem : u0 ∉ rest.map Prod.fst := hnd.1
    obtain ⟨rest2, hrest, hprop⟩ :=
      ih hnd.2 (fun q hq => hall q (List.mem_cons_of_mem _ hq))
    have htick : DictUserState.session_timeout_tick now ((u0, e0) :: rest)
        = if now > t0 then DictUserState.session_timeout_tick now rest
          else
            match DictUserState.session_timeout_tick now rest with
            | .ok rest2 => .ok ((u0, e0) :: rest2)
            | .error s => .error s := by
      simp only [DictUserState.session_timeout_tick, hexe]
    by_cases hgt : now > t0
    · refine ⟨rest2, ?_, ?_⟩
      · rw [htick, if_pos hgt, hrest]
      · intro u e t hl he
        simp only [dlookup] at hl
        by_cases hne : u0 = u
        · rw [if_pos hne] at hl
          cases hl
          subst hne
          rw [hexe] at he
          cases he
          refine ⟨fun _ => ?_, fun hn => absurd hgt hn⟩
          exact tick_preserves_none now u0 rest rest2 hrest
            (dlookup_eq_none_of_not_mem u0 rest hnotmem)
        · rw [if_neg hne] at hl
          exact hprop u e t hl he
    · refine ⟨(u0, e0) :: rest2, ?_, ?_⟩
      · rw [htick, if_neg hgt, hrest]
      · intro u e t hl he
        simp only [dlookup] at hl
        by_cases hne : u0 = u
        · rw [if_pos hne] at hl
          cases hl
          rw [hexe] at he
          cases he
          refine ⟨fun hgt2 => absurd hgt2 hgt, fun _ => ?_⟩
          simp only [dlookup]
          rw [if_pos hne]
        · rw [if_neg hne] at hl
          have hp := hprop u e t hl he
          refine ⟨fun hgt2 => ?_, fun hn2 => ?_⟩
          · simp only [dlookup]
            rw [if_neg hne]
            exact hp.1 hgt2
          · simp only [dlookup]
            rw [if_neg hne]
            exact hp.2 hn2

/-- C7 witness: on a store holding an expired entry `a` (expiry 50) and a
live entry `b` (expiry 200), a tick at time 100 deletes `a` and keeps `b`
unchanged. -/
theorem claim_c7_expiry_sweep_witness :
    ∃ store2, DictUserState.session_timeout_tick 100
        [("a", (⟨some 50, none, [], []⟩ : Entry Nat)), ("b", ⟨some 200, none, [], []⟩)]
        = .ok store2
      ∧ ∀ u e t, dlookup u
            [("a", (⟨some 50, none, [], []⟩ : Entry Nat)),
             ("b", ⟨some 200, none, [], []⟩)] = some e →
          e.expire_session = some t →
          ((100 > t → dlookup u store2 = none)
            ∧ (¬100 > t → dlookup u store2 = some e)) :=
  claim_c7_expiry_sweep Nat 100
    [("a", ⟨some 50, none, [], []⟩), ("b", ⟨some 200, none, [], []⟩)]
    (by decide) (by decide)

/-- C9: on a successfully decoded payload the event's `chat` comes from
`data.chat` for every kind except `CALLBACK_QUERY`, for which it comes
from `data.message.chat`; a callback query's nested sub-event is the
recursive decode of `data.message` with kind `NEW_MESSAGE`; and a callback
query payload missing the required `queryId` field fails to decode. -/
theorem claim_c9_event_decode :
    (∀ (ty : EventType) (data : List (String × PVal)) (ev : EventL),
        ty ≠ EventType.CALLBACK_QUERY → decodeEvent ty data = .ok ev →
        chatFromData data = .ok ev.chat)
  ∧ (∀ (data : List (String × PVal)) (ev : EventL),
        decodeEvent EventType.CALLBACK_QUERY data = .ok ev →
        chatFromMessage data = .ok ev.chat
        ∧ ∃ msgFields sub, dlookup "message" data = some (PVal.vObj msgFields)
            ∧ decodeEvent EventType.NEW_MESSAGE msgFields = .ok sub
            ∧ ev.cb_message = some sub)
  ∧ (∀ data : List (String × PVal), dlookup "queryId" data = none →
        ∃ s, decodeEvent EventType.CALLBACK_QUERY data = .error s) := by
  refine ⟨?_, ?_, ?_⟩
  · intro ty data ev hne h
    rw [decodeEvent] at h
    rw [if_neg hne] at h
    cases hc : chatFromData data with
    | error s => rw [hc] at h; cases h
    | ok chat =>
      simp only [hc] at h
      cases ty <;>
        first
          | exact absurd rfl hne
          | ((repeat' split at h) <;> cases h <;> rfl)
  · intro data ev h
    rw [decodeEvent] at h
    rw [if_pos rfl] at h
    cases hc : chatFromMessage data with
    | error s => rw [hc] at h; cases h
    | ok chat =>
      simp only [hc] at h
      (repeat' split at h) <;> cases h
      exact ⟨rfl, _, _, by assumption, by assumption, rfl⟩
  · intro data hq
    cases hc : chatFromMessage data with
    | error s =>
      refine ⟨s, ?_⟩
      rw [decodeEvent, if_pos rfl, hc]
    | ok chat =>
      refine ⟨"KeyError: queryId", ?_⟩
      rw [decodeEvent, if_pos rfl]
      simp only [hc, hq]

/-- C9 witness: a concrete `newMessage` payload decodes with `chat` taken
from `data.chat`, and a `callbackQuery` payload with no `queryId` fails to
decode. -/
theorem claim_c9_event_decode_witness :
    chatFromData
        [("chat", PVal.vObj [("chatId", PVal.vStr "c1"), ("type", PVal.vStr "private")]),
         ("text", PVal.vStr "hi")]
      = .ok (EventL.chat (.mk EventType.NEW_MESSAGE
          [("chat", PVal.vObj [("chatId", PVal.vStr "c1"), ("type", PVal.vStr "private")]),
           ("text", PVal.vStr "hi")]
          (some (PVal.vStr "hi")) ⟨PVal.vStr "c1", PVal.vStr "private", none⟩
          none none none none [] none none none none))
  ∧ ∃ s, decodeEvent EventType.CALLBACK_QUERY [] = .error s :=
  ⟨claim_c9_event_decode.1 EventType.NEW_MESSAGE
      [("chat", PVal.vObj [("chatId", PVal.vStr "c1"), ("type", PVal.vStr "private")]),
       ("text", PVal.vStr "hi")]
      (.mk EventType.NEW_MESSAGE
        [("chat", PVal.vObj [("chatId", PVal.vStr "c1"), ("type", PVal.vStr "private")]),
         ("text", PVal.vStr "hi")]
        (some (PVal.vStr "hi")) ⟨PVal.vStr "c1", PVal.vStr "private", none⟩
        none none none none [] none none none none)
      (by decide) (by rw [decodeEvent]; rfl),
   claim_c9_event_decode.2.2 [] rfl⟩

end VKTeams
